import Mathlib

/-!
Shallow embedding of `src/app.py`: a FastAPI retrieval service that embeds a
query string, checks a table allow-list, runs a vector-similarity SQL query
against Snowflake, and assembles the resulting rows into a list of
column-name/value records.

Modelling conventions:
* The two external collaborators (the OpenAI embedding client and the
  Snowflake connector) are opaque, possibly-failing calls; one request's
  behaviour of both is packaged in a `World` value.
* Python exceptions are modelled by the `PyExc` type and functions that can
  raise return `Except PyExc _`.  `fastapi.HTTPException` is an `Exception`
  subclass in Python, so a `try/except Exception` block catches it too; the
  model reflects this.
* Embedding vectors are modelled as `List Int`; `str` of a Python list of
  numbers is modelled by `pyStrIntList` (for integers the rendering agrees
  with Python exactly; the float formatting details are irrelevant to every
  property proved here).
* Python `str.upper` is modelled for the ASCII range (`pyUpper`), which is
  exact for ASCII table identifiers such as the ones in the allow-list.
* Calls observable from outside (embedding call, connect, execute, closes)
  are recorded in an event trace alongside the result.
-/

namespace App

/-- A scalar value in a table cell (Snowflake rows hold heterogeneous scalars). -/
inductive Val where
  | str (s : String) : Val
  | int (n : Int) : Val
  | null : Val
deriving DecidableEq, Repr

/-- A Python dict from column names to values, as an insertion-ordered
association list (the representation used by `dict` itself). -/
abbrev Record := List (String × Val)

/-- The Python exceptions this program can raise or observe.
`httpException` is `fastapi.HTTPException` (an `Exception` subclass);
`openaiError` and `storeError` stand for arbitrary exceptions raised by the
OpenAI client and the Snowflake connector; `unboundLocalError` is Python's
`UnboundLocalError` for reading a never-assigned local variable. -/
inductive PyExc where
  | httpException (statusCode : Nat) (detail : String)
  | openaiError (msg : String)
  | storeError (msg : String)
  | unboundLocalError (varName : String)
deriving DecidableEq, Repr

/-- Python `str(e)` for each exception.  Starlette`s `HTTPException.__str__`
returns `f"{status_code}: {detail}"`; for the library errors the message is
the exception text itself. -/
def pyStrExc : PyExc → String
  | .httpException s d => toString s ++ ": " ++ d
  | .openaiError m => m
  | .storeError m => m
  | .unboundLocalError v => "local variable " ++ v ++ " referenced before assignment"

/-- Externally observable calls made while handling one request. -/
inductive Event where
  | embedCall
  | connectCall
  | executeCall (sql : String)
  | cursorClose
  | connClose
deriving DecidableEq, Repr

/-- One request`s behaviour of the external collaborators: the embedding
provider and the data store.  Each call either returns a value or raises
(an `.error` holds the exception text `str(e)`).
`descriptionResult` is `cursor.description`: a list of per-column entries
whose first component is the column name (the remaining metadata of a
description entry is collapsed into one string, since only `desc[0]` is read). -/
structure World where
  embedResult : Except String (List Int)
  connectResult : Except String Unit
  executeResult : String → Except String Unit
  fetchallResult : Except String (List (List Val))
  descriptionResult : Except String (List (String × String))

/-- `ALLOWED_TABLES = {"T2D_WIKI","AI_IMPACT_DATA"}` (src/app.py line 44). -/
def ALLOWED_TABLES : List String := ["T2D_WIKI", "AI_IMPACT_DATA"]

/-- Python `str.upper` on one character, ASCII range (exact for the table
identifiers this program compares). -/
def pyUpperChar (c : Char) : Char :=
  match c with
  | 'a' => 'A' | 'b' => 'B' | 'c' => 'C' | 'd' => 'D' | 'e' => 'E' | 'f' => 'F'
  | 'g' => 'G' | 'h' => 'H' | 'i' => 'I' | 'j' => 'J' | 'k' => 'K' | 'l' => 'L'
  | 'm' => 'M' | 'n' => 'N' | 'o' => 'O' | 'p' => 'P' | 'q' => 'Q' | 'r' => 'R'
  | 's' => 'S' | 't' => 'T' | 'u' => 'U' | 'v' => 'V' | 'w' => 'W' | 'x' => 'X'
  | 'y' => 'Y' | 'z' => 'Z'
  | other => other

/-- Python `table_name.upper()`, modelled characterwise. -/
def pyUpper (s : String) : String :=
  ⟨s.data.map pyUpperChar⟩

/-- Python `str(query_embedding)` for a list of numbers:
`[v0, v1, ...]` with `", "` separators. -/
def pyStrIntList (v : List Int) : String :=
  "[" ++ String.intercalate ", " (v.map toString) ++ "]"

/-- The f-string text of src/app.py lines 68-92 up to `{vector_str}`. -/
def sqlPart1 : String :=
  "\n        WITH QUERY AS (\n            SELECT "

/-- The f-string text between `{vector_str}` and `{table_name}`. -/
def sqlPart2 : String :=
  "::VECTOR(FLOAT, 1536) AS QVEC\n        )\n\n        SELECT\n            ID,\n        \tSOURCE_FILE,\n        \tTEXT,\n        \tPAGES,\n        \tCITATION_COUNT,\n        \tDOI,\n        \tTITLE,\n        \tAUTHORS,\n        \tPUBLISHED,\n        \tCITATION,\n        \tPAGE_REFERENCE,\n        \tSAS_URL,\n        \tIS_TABLE,\n        \tSUMMARY,\n            VECTOR_COSINE_SIMILARITY(EMBEDDING_VECTOR, QVEC) AS similarity\n        FROM "

/-- The f-string text between `{table_name}` and `{top_k}`. -/
def sqlPart3 : String :=
  ", QUERY\n        ORDER BY similarity DESC\n        LIMIT "

/-- The f-string text after `{top_k}`. -/
def sqlPart4 : String :=
  ";\n        "

/-- The SQL text built for the slide-table branch (src/app.py lines 68-92). -/
def buildSql (vectorStr tableName : String) (topK : Int) : String :=
  sqlPart1 ++ vectorStr ++ sqlPart2 ++ tableName ++ sqlPart3 ++ toString topK ++ sqlPart4

/-- One step of Python `dict` construction: inserting key `k` with value `v`
updates the value in place when `k` is already a key, otherwise appends the
pair (dicts preserve insertion order). -/
def dictInsert (d : Record) (k : String) (v : Val) : Record :=
  if d.any (fun p => p.1 == k) then
    d.map (fun p => if p.1 == k then (k, v) else p)
  else
    d ++ [(k, v)]

/-- Python `dict(pairs)`: fold the pairs into an empty dict. -/
def pyDict (l : Record) : Record :=
  l.foldl (fun d p => dictInsert d p.1 p.2) []

/-- Dict lookup by key (insertion semantics make keys unique, so the first
binding found is the binding). -/
def findVal (d : Record) (k : String) : Option Val :=
  (d.find? (fun p => p.1 == k)).map Prod.snd

/-- The ordered key list of a record. -/
def keysOf (d : Record) : List String :=
  d.map Prod.fst

/-- `query_snowflake_for_context(query_embedding, table_name, top_k=15)`
(src/app.py lines 46-108), with the given `World` as the behaviour of the
external calls.  Returns the raised exception or the context list, paired
with the trace of external calls made.  Mirrors the source line by line:
uppercase the table name; reject tables outside the allow-list with an
HTTP 403; stringify the embedding; connect; build `sql` in the hardcoded
branch (when the branch does not match, `sql` stays unbound and
`cursor.execute(sql)` raises `UnboundLocalError`); execute; fetch rows;
read the column names from `cursor.description`; close the cursor and the
connection; zip columns with each row into a dict.  There is no
`try/finally`, so an exception raised after a successful connect skips
both closes. -/
def querySnowflakeForContext (w : World) (queryEmbedding : List Int)
    (tableName : String) (topK : Int) :
    Except PyExc (List Record) × List Event :=
  let tableName := pyUpper tableName
  if tableName ∉ ALLOWED_TABLES then
    (.error (.httpException 403 "Table not allowed."), [])
  else
    let vectorStr := pyStrIntList queryEmbedding
    match w.connectResult with
    | .error m => (.error (.storeError m), [.connectCall])
    | .ok _ =>
      if tableName = "T2D_WIKI" ∨ tableName = "AI_IMPACT_DATA" then
        let sql := buildSql vectorStr tableName topK
        match w.executeResult sql with
        | .error m => (.error (.storeError m), [.connectCall, .executeCall sql])
        | .ok _ =>
          match w.fetchallResult with
          | .error m => (.error (.storeError m), [.connectCall, .executeCall sql])
          | .ok rows =>
            match w.descriptionResult with
            | .error m => (.error (.storeError m), [.connectCall, .executeCall sql])
            | .ok desc =>
              let columns := desc.map Prod.fst
              let context := rows.map (fun row => pyDict (List.zip columns row))
              (.ok context,
               [.connectCall, .executeCall sql, .cursorClose, .connClose])
      else
        -- `sql` was never assigned: evaluating it in `cursor.execute(sql)`
        -- raises UnboundLocalError, before execute itself can be called.
        (.error (.unboundLocalError "sql"), [.connectCall])

/-- The request body `QueryRequest` (src/app.py lines 111-114). -/
structure QueryRequest where
  query_text : String
  top_k : Int := 15
  table_name : String

/-- `process_query(query_data)` (src/app.py lines 116-135).  The `try` block
generates the embedding, then queries Snowflake; on success the handler
returns the context payload.  `except Exception as e` catches every
exception raised in the block, `HTTPException` included, and raises
`HTTPException(500, f"Process failed: {str(e)}")` in its place; that
exception is what escapes to the framework. -/
def process_query (w : World) (queryData : QueryRequest) :
    Except PyExc (List Record) × List Event :=
  let body : Except PyExc (List Record) × List Event :=
    match w.embedResult with
    | .error m => (.error (.openaiError m), [.embedCall])
    | .ok embedding =>
      let r := querySnowflakeForContext w embedding queryData.table_name queryData.top_k
      (r.1, .embedCall :: r.2)
  match body with
  | (.ok context, tr) => (.ok context, tr)
  | (.error e, tr) =>
    (.error (.httpException 500 ("Process failed: " ++ pyStrExc e)), tr)

/-- Substring containment, for statements about what a message leaks. -/
def strContains (s pat : String) : Prop :=
  pat.data <:+: s.data

instance (s pat : String) : Decidable (strContains s pat) :=
  List.decidableInfix pat.data s.data

/-- The column names selected by the SQL (unquoted identifiers come back
uppercased from the store, so the similarity alias reads `SIMILARITY`). -/
def fixedCols : List String :=
  ["ID", "SOURCE_FILE", "TEXT", "PAGES", "CITATION_COUNT", "DOI", "TITLE",
   "AUTHORS", "PUBLISHED", "CITATION", "PAGE_REFERENCE", "SAS_URL",
   "IS_TABLE", "SUMMARY", "SIMILARITY"]

/-- Sorting key used by the store: the claim compares rows by the computed
similarity value, which sits in the 15th selected column.  `simGe a b` says
both values are numeric and `a`s is at least `b`s. -/
def simGe : Option Val → Option Val → Prop :=
  fun a b => ∃ x y : Int, a = some (.int x) ∧ b = some (.int y) ∧ y ≤ x

/-! Concrete worlds and requests used as witnesses and counterexamples. -/

/-- A cursor description matching the SQL`s select list. -/
def descW : List (String × String) :=
  fixedCols.map (fun c => (c, "COLUMN_TYPE"))

/-- A world where every external call succeeds and the store has no rows. -/
def wOk : World :=
  ⟨.ok [1, 2, 3, 4], .ok (), fun _ => .ok (), .ok [], .ok descW⟩

/-- A world where `cursor.execute` raises. -/
def wExecFail : World :=
  ⟨.ok [1, 2, 3, 4], .ok (), fun _ => .error "SQL compilation error", .ok [],
   .ok descW⟩

/-- A world where `cursor.execute` raises an error that echoes the statement
text, the way SQL compilation errors commonly do. -/
def wEcho : World :=
  ⟨.ok [1, 2, 3, 4], .ok (),
   fun sql => .error ("SQL compilation error: " ++ sql), .ok [], .ok descW⟩

/-- A store row shaped like the select list, with similarity 9 in the last
column. -/
def row1 : List Val :=
  [.int 1, .str "f1.pdf", .str "text one", .int 3, .int 10, .str "doi1",
   .str "title one", .str "authors one", .str "2021", .str "cite one",
   .int 1, .str "url1", .int 0, .str "summary one", .int 9]

/-- A second store row, with the smaller similarity 8. -/
def row2 : List Val :=
  [.int 2, .str "f2.pdf", .str "text two", .int 5, .int 4, .str "doi2",
   .str "title two", .str "authors two", .str "2022", .str "cite two",
   .int 2, .str "url2", .int 0, .str "summary two", .int 8]

/-- A world whose store returns the two rows above, already ordered by
descending similarity. -/
def wRows : World :=
  ⟨.ok [1, 2, 3, 4], .ok (), fun _ => .ok (), .ok [row1, row2], .ok descW⟩

/-- The context the program assembles from `wRows`. -/
def ctxW : List Record :=
  [row1, row2].map (fun r => pyDict (List.zip fixedCols r))

/-- A request for a table that is not on the allow-list. -/
def reqSecret : QueryRequest :=
  ⟨"what is AI impact on jobs", 3, "secret_table"⟩

/-- A request for an allow-listed table. -/
def reqAllowed : QueryRequest :=
  ⟨"what is AI impact on jobs", 3, "AI_IMPACT_DATA"⟩

/-! Facts about the ASCII uppercase model. -/

/-- The 26 uppercase letters `pyUpperChar` can produce on the letter branches. -/
def ucLetters : List Char :=
  ['A', 'B', 'C', 'D', 'E', 'F', 'G', 'H', 'I', 'J', 'K', 'L', 'M',
   'N', 'O', 'P', 'Q', 'R', 'S', 'T', 'U', 'V', 'W', 'X', 'Y', 'Z']

theorem pyUpperChar_cases (c : Char) :
    pyUpperChar c = c ∨ pyUpperChar c ∈ ucLetters := by
  unfold pyUpperChar
  split
  all_goals first
    | (right; decide)
    | (left; rfl)

theorem pyUpperChar_fixed_of_uc (c : Char) (hc : c ∈ ucLetters) :
    pyUpperChar c = c := by
  fin_cases hc <;> rfl

theorem pyUpperChar_idem (c : Char) :
    pyUpperChar (pyUpperChar c) = pyUpperChar c := by
  rcases pyUpperChar_cases c with h | h
  · simp only [h]
  · exact pyUpperChar_fixed_of_uc _ h

theorem pyUpper_idem (s : String) : pyUpper (pyUpper s) = pyUpper s := by
  unfold pyUpper
  simp only [List.map_map]
  congr 1
  exact List.map_congr_left fun c _ => pyUpperChar_idem c

/-- Passing an already-uppercased table name changes nothing: the function
re-normalizes and `pyUpper` is idempotent. -/
theorem querySnowflake_upper_invariant (w : World) (emb : List Int)
    (t : String) (k : Int) :
    querySnowflakeForContext w emb (pyUpper t) k =
      querySnowflakeForContext w emb t k := by
  simp only [querySnowflakeForContext, pyUpper_idem]

/-! Claim theorems. -/

/-- C1, counterexample to the claim as stated: for the concrete request with
`table_name = "secret_table"` (not on the allow-list), the embedding
provider IS invoked — `openai.embeddings.create` runs as Step 1 of
`process_query`, before `query_snowflake_for_context` performs the
allow-list check, so the rejection does not happen "without invoking the
embedding provider". -/
theorem C1_counterexample :
    pyUpper "secret_table" ∉ ALLOWED_TABLES ∧
    Event.embedCall ∈ (process_query wOk reqSecret).2 := by
  decide

/-- C1, amended: for every request whose table name (uppercased) is not on
the allow-list, the data store is never touched — the trace contains no
connect call and no execute call; the embedding provider, however, is
invoked before the check (see the counterexample). -/
theorem C1_rejected_table_never_reaches_store (w : World) (req : QueryRequest)
    (hdis : pyUpper req.table_name ∉ ALLOWED_TABLES) :
    Event.connectCall ∉ (process_query w req).2 ∧
    ∀ s, Event.executeCall s ∉ (process_query w req).2 := by
  unfold process_query
  cases w.embedResult with
  | error m => simp
  | ok e =>
    simp only [querySnowflakeForContext, hdis]
    simp

/-- C1, witness: the amended theorem applied to the concrete disallowed
request. -/
theorem C1_rejected_table_never_reaches_store_witness :
    Event.connectCall ∉ (process_query wOk reqSecret).2 ∧
    Event.executeCall "SELECT 1" ∉ (process_query wOk reqSecret).2 :=
  ⟨(C1_rejected_table_never_reaches_store wOk reqSecret (by decide)).1,
   (C1_rejected_table_never_reaches_store wOk reqSecret (by decide)).2
     "SELECT 1"⟩

/-- C2: the claim says the caller receives the distinguishable 403
"Table not allowed." outcome for a disallowed table.  The code violates
this: the `HTTPException(403)` raised by `query_snowflake_for_context` is
an `Exception`, so the blanket `except Exception` in `process_query`
catches it and re-raises `HTTPException(500, "Process failed: 403: Table
not allowed.")` — the caller receives the generic internal-failure
category, never the forbidden category.  This theorem evaluates the code
at the failing input `table_name = "secret_table"`. -/
theorem C2_forbidden_surfaced_as_500 :
    (process_query wOk reqSecret).1 =
      .error (.httpException 500 "Process failed: 403: Table not allowed.") := by
  rfl

/-- C3, counterexample to the claim as stated: in a world where the connect
succeeds and `cursor.execute` raises, the connection is opened (the trace
holds the connect call) but never closed (no close event) — there is no
`try/finally` in `query_snowflake_for_context`. -/
theorem C3_counterexample :
    Event.connectCall ∈
      (querySnowflakeForContext wExecFail [1, 2, 3, 4] "AI_IMPACT_DATA" 3).2 ∧
    Event.connClose ∉
      (querySnowflakeForContext wExecFail [1, 2, 3, 4] "AI_IMPACT_DATA" 3).2 := by
  decide

/-- C3, amended: the cursor and the connection are closed on the normal
return path (whenever the function returns a context list rather than
raising); on the paths where execute, fetchall or reading the description
raises, the close calls are skipped. -/
theorem C3_connection_closed_on_success (w : World) (emb : List Int)
    (t : String) (k : Int) (ctx : List Record)
    (hok : (querySnowflakeForContext w emb t k).1 = .ok ctx) :
    Event.cursorClose ∈ (querySnowflakeForContext w emb t k).2 ∧
    Event.connClose ∈ (querySnowflakeForContext w emb t k).2 := by
  by_cases hmem : pyUpper t ∉ ALLOWED_TABLES
  · simp [querySnowflakeForContext, hmem] at hok
  · rcases hc : w.connectResult with m | u
    · simp [querySnowflakeForContext, hmem, hc] at hok
    · by_cases hbr : pyUpper t = "T2D_WIKI" ∨ pyUpper t = "AI_IMPACT_DATA"
      · rcases he : w.executeResult (buildSql (pyStrIntList emb) (pyUpper t) k)
            with m | u2
        · simp [querySnowflakeForContext, hmem, hc, hbr, he] at hok
        · rcases hf : w.fetchallResult with m | rows
          · simp [querySnowflakeForContext, hmem, hc, hbr, he, hf] at hok
          · rcases hd : w.descriptionResult with m | desc
            · simp [querySnowflakeForContext, hmem, hc, hbr, he, hf, hd] at hok
            · simp [querySnowflakeForContext, hmem, hc, hbr, he, hf, hd]
      · simp [querySnowflakeForContext, hmem, hc, hbr] at hok

/-- C3, witness: the amended theorem applied to the all-successful world. -/
theorem C3_connection_closed_on_success_witness :
    Event.cursorClose ∈
      (querySnowflakeForContext wOk [1, 2, 3, 4] "AI_IMPACT_DATA" 3).2 ∧
    Event.connClose ∈
      (querySnowflakeForContext wOk [1, 2, 3, 4] "AI_IMPACT_DATA" 3).2 :=
  C3_connection_closed_on_success wOk [1, 2, 3, 4] "AI_IMPACT_DATA" 3 [] (by rfl)

/-- Shape of every successful run: the context is exactly the fetched rows
zipped with the column names read from the cursor description. -/
theorem querySnowflake_ok_shape (w : World) (emb : List Int) (t : String)
    (k : Int) (ctx : List Record)
    (hok : (querySnowflakeForContext w emb t k).1 = .ok ctx) :
    ∃ rows desc, w.fetchallResult = .ok rows ∧ w.descriptionResult = .ok desc ∧
      ctx = rows.map (fun row => pyDict (List.zip (desc.map Prod.fst) row)) := by
  by_cases hmem : pyUpper t ∉ ALLOWED_TABLES
  · simp [querySnowflakeForContext, hmem] at hok
  · rcases hc : w.connectResult with m | u
    · simp [querySnowflakeForContext, hmem, hc] at hok
    · by_cases hbr : pyUpper t = "T2D_WIKI" ∨ pyUpper t = "AI_IMPACT_DATA"
      · rcases he : w.executeResult (buildSql (pyStrIntList emb) (pyUpper t) k)
            with m | u2
        · simp [querySnowflakeForContext, hmem, hc, hbr, he] at hok
        · rcases hf : w.fetchallResult with m | rows
          · simp [querySnowflakeForContext, hmem, hc, hbr, he, hf] at hok
          · rcases hd : w.descriptionResult with m | desc
            · simp [querySnowflakeForContext, hmem, hc, hbr, he, hf, hd] at hok
            · refine ⟨rows, desc, rfl, rfl, ?_⟩
              simp [querySnowflakeForContext, hmem, hc, hbr, he, hf, hd] at hok
              exact hok.symm
      · simp [querySnowflakeForContext, hmem, hc, hbr] at hok

/-- C9: every failure raised inside the pipeline (embedding-provider error,
store error, or any other exception in the try block) is caught by the
outermost handler and mapped to the HTTP 500 internal-failure response;
what escapes `process_query` is always either the success payload or an
`HTTPException(500, ...)`, never a raw library exception. -/
theorem C9_failures_mapped_to_internal_error (w : World) (req : QueryRequest) :
    (∃ ctx, (process_query w req).1 = .ok ctx) ∨
    (∃ d, (process_query w req).1 = .error (.httpException 500 d)) := by
  unfold process_query
  cases w.embedResult with
  | error m => exact .inr ⟨_, rfl⟩
  | ok e =>
    rcases h : (querySnowflakeForContext w e req.table_name req.top_k).1
        with ex | ctx
    · simp only [h]
      exact .inr ⟨_, rfl⟩
    · simp only [h]
      exact .inl ⟨_, rfl⟩

/-- C10: the allow-list is contained in the hardcoded query-builder branch
tuple, so for every table that passes the check the branch matches and the
local `sql` is always bound before `cursor.execute(sql)` runs: on no input
does `query_snowflake_for_context` raise the `UnboundLocalError` that an
unbound `sql` would cause. -/
theorem C10_sql_always_bound (w : World) (emb : List Int) (t : String)
    (k : Int) :
    (∀ tbl ∈ ALLOWED_TABLES, tbl = "T2D_WIKI" ∨ tbl = "AI_IMPACT_DATA") ∧
    ∀ v, (querySnowflakeForContext w emb t k).1 ≠
      .error (.unboundLocalError v) := by
  refine ⟨by decide, fun v hcon => ?_⟩
  by_cases hmem : pyUpper t ∉ ALLOWED_TABLES
  · simp [querySnowflakeForContext, hmem] at hcon
  · rcases hc : w.connectResult with m | u
    · simp [querySnowflakeForContext, hmem, hc] at hcon
    · have hbr : pyUpper t = "T2D_WIKI" ∨ pyUpper t = "AI_IMPACT_DATA" := by
        have h := not_not.mp hmem
        simpa [ALLOWED_TABLES] using h
      rcases he : w.executeResult (buildSql (pyStrIntList emb) (pyUpper t) k)
          with m | u2
      · simp [querySnowflakeForContext, hmem, hc, hbr, he] at hcon
      · rcases hf : w.fetchallResult with m | rows
        · simp [querySnowflakeForContext, hmem, hc, hbr, he, hf] at hcon
        · rcases hd : w.descriptionResult with m | desc
          · simp [querySnowflakeForContext, hmem, hc, hbr, he, hf, hd] at hcon
          · simp [querySnowflakeForContext, hmem, hc, hbr, he, hf, hd] at hcon

/-- C10, witness: the theorem instantiated at a concrete world, table and
variable name. -/
theorem C10_sql_always_bound_witness :
    ("T2D_WIKI" = "T2D_WIKI" ∨ "T2D_WIKI" = "AI_IMPACT_DATA") ∧
    (querySnowflakeForContext wOk [1, 2, 3, 4] "AI_IMPACT_DATA" 3).1 ≠
      .error (.unboundLocalError "sql") :=
  ⟨(C10_sql_always_bound wOk [1, 2, 3, 4] "AI_IMPACT_DATA" 3).1
      "T2D_WIKI" (by decide),
   (C10_sql_always_bound wOk [1, 2, 3, 4] "AI_IMPACT_DATA" 3).2 "sql"⟩

/-- C7: when the store honours the LIMIT clause (at most `top_k` rows come
back), the context list has exactly one record per returned row, hence at
most `top_k` records; zero rows yield the empty list, not an error. -/
theorem C7_length_bounded_by_top_k (w : World) (emb : List Int) (t : String)
    (k : Int) (rows : List (List Val)) (ctx : List Record)
    (hrows : w.fetchallResult = .ok rows)
    (hlim : (rows.length : Int) ≤ k)
    (hok : (querySnowflakeForContext w emb t k).1 = .ok ctx) :
    ctx.length = rows.length ∧ (ctx.length : Int) ≤ k ∧
    (rows = [] → ctx = []) := by
  obtain ⟨rows0, desc0, hf, hd, hctx⟩ :=
    querySnowflake_ok_shape w emb t k ctx hok
  rw [hrows] at hf
  cases hf
  subst hctx
  refine ⟨List.length_map _ _, by simpa using hlim, fun h => by simp [h]⟩

/-- C7, witness: the empty store yields the empty context list. -/
theorem C7_length_bounded_by_top_k_witness :
    ([] : List Record).length = ([] : List (List Val)).length ∧
    ((([] : List Record).length : Int) ≤ 3) ∧
    (([] : List (List Val)) = [] → ([] : List Record) = []) :=
  C7_length_bounded_by_top_k wOk [1, 2, 3, 4] "AI_IMPACT_DATA" 3 [] []
    rfl (by decide) rfl

/-- C8: the system treats a request exactly like the request with the table
name replaced by its uppercase form — both at the query function (any
embedding, any world) and end-to-end in the request handler — because
`query_snowflake_for_context` uppercases the name before the allow-list
check and before query construction. -/
theorem C8_casing_invariant (w : World) (emb : List Int) (qt t : String)
    (k : Int) :
    querySnowflakeForContext w emb (pyUpper t) k =
      querySnowflakeForContext w emb t k ∧
    process_query w ⟨qt, k, pyUpper t⟩ = process_query w ⟨qt, k, t⟩ := by
  refine ⟨querySnowflake_upper_invariant w emb t k, ?_⟩
  unfold process_query
  cases w.embedResult with
  | error m => rfl
  | ok e => simp only [querySnowflake_upper_invariant]

/-! Lemmas about the dict model, used for the record-shape claims. -/

/-- Inserting a key that is not yet present appends the pair. -/
theorem dictInsert_of_fresh (d : Record) (k : String) (v : Val)
    (hk : k ∉ keysOf d) : dictInsert d k v = d ++ [(k, v)] := by
  have h : d.any (fun p => p.1 == k) = false := by
    rw [List.any_eq_false]
    intro p hp hbeq
    refine hk ?_
    have hpk : p.1 = k := by simpa using hbeq
    simpa [keysOf, hpk] using List.mem_map_of_mem Prod.fst hp
  simp [dictInsert, h]

/-- Folding pairs with pairwise-distinct fresh keys into a dict appends
them in order. -/
theorem foldl_dictInsert_fresh :
    ∀ (l d : Record), (keysOf d ++ keysOf l).Nodup →
      l.foldl (fun d p => dictInsert d p.1 p.2) d = d ++ l := by
  intro l
  induction l with
  | nil => intro d _; simp
  | cons p l ih =>
    intro d h
    have hfresh : p.1 ∉ keysOf d := by
      rcases List.nodup_append.mp h with ⟨h1, h2, hdisj⟩
      intro hmem
      exact hdisj hmem (by simp [keysOf])
    have h' : (keysOf (d ++ [(p.1, p.2)]) ++ keysOf l).Nodup := by
      simpa [keysOf, List.append_assoc] using h
    simp only [List.foldl_cons]
    rw [dictInsert_of_fresh d p.1 p.2 hfresh, ih _ h']
    simp

/-- `dict(pairs)` with distinct keys is the pair list itself. -/
theorem pyDict_eq_self (l : Record) (h : (keysOf l).Nodup) : pyDict l = l := by
  have := foldl_dictInsert_fresh l [] (by simpa [keysOf] using h)
  simpa [pyDict] using this

/-- Looking up the `i`-th key of a distinct key list zipped with values
returns the `i`-th value. -/
theorem findVal_zip (ks : List String) :
    ∀ (vs : List Val) (i : Nat) (key : String), ks.Nodup →
      ks[i]? = some key → i < vs.length →
      findVal (List.zip ks vs) key = vs[i]? := by
  induction ks with
  | nil => intro vs i key _ hk _; simp at hk
  | cons a ks ih =>
    intro vs i key hnd hk hlen
    cases vs with
    | nil => simp at hlen
    | cons v vs =>
      cases i with
      | zero =>
        have hak : a = key := by simpa using hk
        subst hak
        simp [findVal, List.zip_cons_cons, List.find?_cons_of_pos]
      | succ n =>
        have hk2 : ks[n]? = some key := by simpa using hk
        have hkey_mem : key ∈ ks := List.getElem?_mem hk2
        have hne : ((a, v).1 == key) = false := by
          simp only [beq_eq_false_iff_ne, ne_eq]
          intro he
          rw [he] at hnd
          exact (List.nodup_cons.mp hnd).1 hkey_mem
        have hlen2 : n < vs.length := by simpa using hlen
        simp only [List.zip_cons_cons, findVal, List.find?_cons, hne]
        have := ih vs n key (List.nodup_cons.mp hnd).2 hk2 hlen2
        simpa [findVal] using this

/-- The key list of a dict built from distinct column names zipped with a
long-enough row is exactly the column-name list. -/
theorem keys_pyDict_zip (ks : List String) (vs : List Val) (hnd : ks.Nodup)
    (hlen : ks.length ≤ vs.length) : keysOf (pyDict (List.zip ks vs)) = ks := by
  have hkeys : keysOf (List.zip ks vs) = ks := by
    simp [keysOf, List.map_fst_zip ks vs hlen]
  rw [pyDict_eq_self _ (by rw [hkeys]; exact hnd), hkeys]

/-- Looking up SIMILARITY in a record built from a 15-value row returns the
last value of the row. -/
theorem findVal_similarity (r : List Val) (hr : r.length = 15) :
    findVal (pyDict (List.zip fixedCols r)) "SIMILARITY" = r[14]? := by
  have hnd : fixedCols.Nodup := by decide
  have hkeys : keysOf (List.zip fixedCols r) = fixedCols := by
    simp [keysOf, List.map_fst_zip fixedCols r (by rw [hr]; decide)]
  rw [pyDict_eq_self _ (by rw [hkeys]; exact hnd)]
  exact findVal_zip fixedCols r 14 "SIMILARITY" hnd (by decide) (by rw [hr]; decide)

/-- C5: when the store returns rows ordered by non-increasing similarity
(the last selected column) and shaped like the select list, the assembled
context preserves that order: the similarity values looked up in the
records are pairwise non-increasing, and the `i`-th record is built from
the `i`-th returned row. -/
theorem C5_similarity_order_preserved (w : World) (emb : List Int)
    (t : String) (k : Int) (ctx : List Record) (rows : List (List Val))
    (desc : List (String × String))
    (hok : (querySnowflakeForContext w emb t k).1 = .ok ctx)
    (hrows : w.fetchallResult = .ok rows)
    (hdesc : w.descriptionResult = .ok desc)
    (hcols : desc.map Prod.fst = fixedCols)
    (hlen : ∀ r ∈ rows, r.length = 15)
    (hsorted : rows.Pairwise (fun r₁ r₂ => simGe r₁[14]? r₂[14]?)) :
    (ctx.map (fun rec => findVal rec "SIMILARITY")).Pairwise simGe ∧
    ctx.length = rows.length ∧
    ∀ i, i < rows.length →
      ctx[i]? = (rows[i]?).map (fun r => pyDict (List.zip fixedCols r)) := by
  obtain ⟨rows0, desc0, hf, hd, hctx⟩ :=
    querySnowflake_ok_shape w emb t k ctx hok
  rw [hrows] at hf
  cases hf
  rw [hdesc] at hd
  cases hd
  rw [hcols] at hctx
  subst hctx
  refine ⟨?_, List.length_map _ _, fun i hi => by simp [List.getElem?_map]⟩
  rw [List.map_map, List.pairwise_map]
  refine List.Pairwise.imp_of_mem ?_ hsorted
  intro r₁ r₂ h1 h2 hg
  simp only [Function.comp_apply]
  rw [findVal_similarity r₁ (hlen r₁ h1), findVal_similarity r₂ (hlen r₂ h2)]
  exact hg

/-- C5, witness: the two-row world, rows sorted 9 then 8. -/
theorem C5_similarity_order_preserved_witness :
    (ctxW.map (fun rec => findVal rec "SIMILARITY")).Pairwise simGe ∧
    ctxW.length = [row1, row2].length ∧
    ctxW[0]? = ([row1, row2][0]?).map (fun r => pyDict (List.zip fixedCols r)) := by
  have hsorted : ([row1, row2] : List (List Val)).Pairwise
      (fun r₁ r₂ => simGe r₁[14]? r₂[14]?) := by
    refine List.Pairwise.cons ?_ (List.pairwise_singleton _ _)
    intro r hr
    rw [List.mem_singleton] at hr
    subst hr
    exact ⟨9, 8, rfl, rfl, by decide⟩
  have h := C5_similarity_order_preserved wRows [1, 2, 3, 4] "AI_IMPACT_DATA"
    15 ctxW [row1, row2] descW rfl rfl rfl rfl (by decide) hsorted
  exact ⟨h.1, h.2.1, h.2.2 0 (by decide)⟩

/-- C6: when the cursor description carries the documented column names and
the rows are shaped like the select list, every record of one response has
the identical ordered key list, equal to the fixed documented column set,
independent of which row it came from. -/
theorem C6_uniform_record_keys (w : World) (emb : List Int) (t : String)
    (k : Int) (ctx : List Record) (rows : List (List Val))
    (desc : List (String × String))
    (hok : (querySnowflakeForContext w emb t k).1 = .ok ctx)
    (hrows : w.fetchallResult = .ok rows)
    (hdesc : w.descriptionResult = .ok desc)
    (hcols : desc.map Prod.fst = fixedCols)
    (hlen : ∀ r ∈ rows, r.length = 15) :
    ∀ rec ∈ ctx, keysOf rec = fixedCols := by
  obtain ⟨rows0, desc0, hf, hd, hctx⟩ :=
    querySnowflake_ok_shape w emb t k ctx hok
  rw [hrows] at hf
  cases hf
  rw [hdesc] at hd
  cases hd
  rw [hcols] at hctx
  subst hctx
  intro rec hrec
  rw [List.mem_map] at hrec
  obtain ⟨r, hr, rfl⟩ := hrec
  exact keys_pyDict_zip fixedCols r (by decide) (by rw [hlen r hr]; decide)

/-- C6, witness: the record built from the first concrete row has exactly
the documented keys. -/
theorem C6_uniform_record_keys_witness :
    keysOf (pyDict (List.zip fixedCols row1)) = fixedCols :=
  C6_uniform_record_keys wRows [1, 2, 3, 4] "AI_IMPACT_DATA" 15 ctxW
    [row1, row2] descW rfl rfl rfl rfl (by decide)
    (pyDict (List.zip fixedCols row1))
    (List.mem_map_of_mem (fun r => pyDict (List.zip fixedCols r))
      (by simp : row1 ∈ [row1, row2]))

/-- C4, counterexample to the claim as stated: the 500 detail is
`"Process failed: " + str(e)` with the external exception text forwarded
verbatim, so when the store error echoes the SQL statement (as SQL
compilation errors do) the detail contains the interpolated vector
literal. -/
theorem C4_counterexample :
    (process_query wEcho reqAllowed).1 =
      .error (.httpException 500 ("Process failed: " ++
        ("SQL compilation error: " ++
          buildSql (pyStrIntList [1, 2, 3, 4]) "AI_IMPACT_DATA" 3))) ∧
    strContains ("Process failed: " ++ ("SQL compilation error: " ++
        buildSql (pyStrIntList [1, 2, 3, 4]) "AI_IMPACT_DATA" 3))
      (pyStrIntList [1, 2, 3, 4]) := by
  constructor
  · rfl
  · unfold strContains buildSql
    simp only [String.data_append, List.append_assoc]
    exact (List.infix_append' _ _ _).trans
      ((List.suffix_append _ _).isInfix.trans
        (List.suffix_append _ _).isInfix)

/-- A pattern starting with a character absent from the front part occurs
in a concatenation exactly when it occurs in the back part. -/
theorem cons_notMem_append_iff {α : Type} (c : α) (l m : List α) :
    ∀ pre : List α, c ∉ pre → ((c :: l) <:+: pre ++ m ↔ (c :: l) <:+: m) := by
  intro pre
  induction pre with
  | nil => intro _; simp
  | cons a pre ih =>
    intro hpre
    have hpre2 : c ∉ pre := fun hm => hpre (List.mem_cons_of_mem a hm)
    constructor
    · intro h
      rw [List.cons_append, List.infix_cons_iff] at h
      rcases h with hp | h
      · exfalso
        rcases List.cons_prefix_cons.mp hp with ⟨hca, _⟩
        exact hpre (hca ▸ List.mem_cons_self a pre)
      · exact (ih hpre2).mp h
    · intro h
      exact h.trans (List.suffix_append (a :: pre) m).isInfix

/-- The fixed handler text adds no vector content: a vector literal (it
starts with a bracket, which the handler prefix does not contain) occurs in
the 500 detail exactly when it occurs in the forwarded exception text. -/
theorem strContains_processFailed_iff (msg : String) (v : List Int) :
    strContains ("Process failed: " ++ msg) (pyStrIntList v) ↔
    strContains msg (pyStrIntList v) := by
  have hdata : (pyStrIntList v).data =
      '[' :: (String.intercalate ", " (v.map toString) ++ "]").data := by
    simp [pyStrIntList, String.data_append]
  unfold strContains
  rw [String.data_append, hdata]
  exact cons_notMem_append_iff '[' _ _ ("Process failed: ".data) (by decide)

/-- C4, amended: every error response is an HTTP 500 whose detail is the
fixed prefix plus the text of the raised exception; the handler itself
interpolates no vector contents, credentials or connection parameters —
the detail contains the query-vector literal exactly when the forwarded
exception text already contains it (which the externally produced text
can, see the counterexample). -/
theorem C4_detail_forwards_exception_text (w : World) (req : QueryRequest)
    (ex : PyExc) (v : List Int)
    (herr : (process_query w req).1 = .error ex) :
    ∃ e, ex = .httpException 500 ("Process failed: " ++ pyStrExc e) ∧
      (strContains ("Process failed: " ++ pyStrExc e) (pyStrIntList v) ↔
       strContains (pyStrExc e) (pyStrIntList v)) := by
  revert herr
  unfold process_query
  cases w.embedResult with
  | error m =>
    intro herr
    simp only [Except.error.injEq] at herr
    exact ⟨.openaiError m, herr.symm, strContains_processFailed_iff _ _⟩
  | ok e =>
    rcases h : (querySnowflakeForContext w e req.table_name req.top_k).1
        with ex2 | ctx
    · intro herr
      simp only [h, Except.error.injEq] at herr
      exact ⟨ex2, herr.symm, strContains_processFailed_iff _ _⟩
    · intro herr
      simp only [h] at herr
      cases herr

/-- C4, witness: the amended theorem applied to the failing-execute world. -/
theorem C4_detail_forwards_exception_text_witness :
    ∃ e, PyExc.httpException 500 "Process failed: SQL compilation error" =
        .httpException 500 ("Process failed: " ++ pyStrExc e) ∧
      (strContains ("Process failed: " ++ pyStrExc e)
          (pyStrIntList [1, 2, 3, 4]) ↔
       strContains (pyStrExc e) (pyStrIntList [1, 2, 3, 4])) :=
  C4_detail_forwards_exception_text wExecFail reqAllowed
    (.httpException 500 "Process failed: SQL compilation error")
    [1, 2, 3, 4] (by rfl)

end App
